import Mathlib

set_option maxHeartbeats 1000000
set_option linter.unusedVariables false

/-!
Shallow embedding of `update-record.py`.

Modelling conventions:
* HTTP I/O is modelled by oracle inputs: the GET to the ngrok API is given as an
  `Option NgrokResponse` (`none` = `requests.exceptions.RequestException`), and
  the response to the single PUT as a `PutOutcome` value.
* A Python function that can fall through, return a value, or raise is given an
  explicit return type enumerating those outcomes.
* Python string primitives (`str.replace`, `str.split(":")`, `int(...)`) are
  re-implemented structurally on `List Char` so the kernel can evaluate them.
* Log output (`print`) is collected as a `List String`.
-/

/-- Python `s.replace(pat, rep)`: replace every non-overlapping occurrence, left
to right.  Fuel-structured so the kernel can evaluate it; fuel equal to the
length of the string suffices because each step consumes at least one character
when `pat` is nonempty. -/
def replaceFuel (pat rep : List Char) : Nat → List Char → List Char
  | 0, cs => cs
  | _ + 1, [] => []
  | fuel + 1, c :: cs =>
    if pat.isPrefixOf (c :: cs) then rep ++ replaceFuel pat rep fuel (cs.drop (pat.length - 1))
    else c :: replaceFuel pat rep fuel cs

/-- Python `s.replace(pat, rep)` on `String` (the program only uses a nonempty
pattern, `"tcp://"`). -/
def pyReplace (s pat rep : String) : String :=
  if pat.toList = [] then s
  else (replaceFuel pat.toList rep.toList s.toList.length s.toList).asString

/-- Python `s.split(":")`: split on every colon; `"".split(":") == [""]`. -/
def splitOnColon : List Char → List (List Char)
  | [] => [[]]
  | c :: cs =>
    if c = ':' then [] :: splitOnColon cs
    else
      match splitOnColon cs with
      | [] => [[c]]
      | g :: gs => (c :: g) :: gs

/-- Python `s.split(":")` on `String`. -/
def pySplitColon (s : String) : List String := (splitOnColon s.toList).map List.asString

/-- Leading/trailing-whitespace stripping, as `int(...)` applies to its argument. -/
def pyStripWs (cs : List Char) : List Char :=
  ((cs.dropWhile Char.isWhitespace).reverse.dropWhile Char.isWhitespace).reverse

/-- Digit part of a Python integer literal after its first digit:
`(digit | "_" digit)*`, accumulating the base-10 value; a lone or doubled
underscore is rejected, as Python's `int` rejects it. -/
def pyDigitsAux : List Char → Nat → Option Nat
  | [], acc => some acc
  | c :: cs, acc =>
    if c.isDigit then pyDigitsAux cs (acc * 10 + (c.toNat - 48))
    else if c = '_' then
      match cs with
      | [] => none
      | d :: cs2 => if d.isDigit then pyDigitsAux cs2 (acc * 10 + (d.toNat - 48)) else none
    else none

/-- Unsigned part of a Python integer literal: a digit followed by `pyDigitsAux`. -/
def pyParseUnsigned : List Char → Option Nat
  | [] => none
  | c :: cs => if c.isDigit then pyDigitsAux cs (c.toNat - 48) else none

/-- Python `int(s)` in base 10: optional surrounding whitespace, optional sign,
then a nonempty digit string (underscores allowed between digits); `none` models
the `ValueError` raised on any other input. -/
def parsePyInt (s : String) : Option Int :=
  match pyStripWs s.toList with
  | [] => none
  | c :: cs =>
    if c = '+' then (pyParseUnsigned cs).map Int.ofNat
    else if c = '-' then (pyParseUnsigned cs).map (fun n => -(n : Int))
    else (pyParseUnsigned (c :: cs)).map Int.ofNat

/-- Base-10 value of a digit string (Horner scheme). -/
def digitsToNatAux : List Char → Nat → Nat
  | [], acc => acc
  | c :: cs, acc => digitsToNatAux cs (acc * 10 + (c.toNat - 48))

/-- Base-10 value of a digit-only `String`. -/
def strVal (s : String) : Nat := digitsToNatAux s.toList 0

deriving instance DecidableEq for Except

/-- One entry of the ngrok API's `tunnels` list. -/
structure Tunnel where
  proto : String
  public_url : String
deriving DecidableEq

/-- Response to the GET against the ngrok API.  `tunnels = none` models a body
whose JSON parse or `["tunnels"]` lookup raises (caught by `except Exception`). -/
structure NgrokResponse where
  status_code : Nat
  tunnels : Option (List Tunnel)
deriving DecidableEq

/-- Possible returns of `get_ngrok_url`: the explicit `return None, None`, the
list produced by `return ....replace("tcp://", "").split(":")`, or the implicit
bare `None` when the `for` loop finds no `"tcp"` tunnel and falls through. -/
inductive PyReturn2 where
  | pairNone : PyReturn2
  | parts : List String → PyReturn2
  | bareNone : PyReturn2
deriving DecidableEq

/-- `get_ngrok_url` of `update-record.py`: the first component is the returned
value, the second the printed log lines. -/
def get_ngrok_url (api_endpoint_url : String) (resp : Option NgrokResponse) :
    PyReturn2 × List String :=
  match resp with
  | none => (.pairNone, ["Network error occurred: connection failed"])
  | some r =>
    if r.status_code ≠ 200 then
      (.pairNone, ["Error fetching ngrok URL: HTTP " ++ Nat.repr r.status_code])
    else
      match r.tunnels with
      | none => (.pairNone, ["Error: malformed tunnels JSON"])
      | some ts =>
        match ts.find? (fun t => t.proto == "tcp") with
        | some t => (.parts (pySplitColon (pyReplace t.public_url "tcp://" "")), [])
        | none => (.bareNone, [])

/-- The caller's `ngrok_host, ngrok_port = get_ngrok_url(...)` unpacking: a
2-tuple or 2-list unpacks, a bare `None` raises `TypeError`, a list of any other
length raises `ValueError`. -/
def unpack2 : PyReturn2 → Except String (Option String × Option String)
  | .pairNone => .ok (none, none)
  | .bareNone => .error "TypeError: cannot unpack non-iterable NoneType object"
  | .parts [a, b] => .ok (some a, some b)
  | .parts _ => .error "ValueError: unpacking mismatch"

/-- The `data` sub-object of the Cloudflare request body. -/
structure DnsData where
  service : String
  proto : String
  name : String
  priority : Nat
  weight : Nat
  port : Int
  target : String
deriving DecidableEq

/-- The JSON body of the Cloudflare PUT. -/
structure DnsBody where
  type : String
  name : String
  content : String
  data : DnsData
  ttl : Nat
deriving DecidableEq

/-- A PUT request as `requests.put(url, headers=headers, json=data)` issues it. -/
structure DnsRequest where
  url : String
  headers : List (String × String)
  body : DnsBody
deriving DecidableEq

/-- Environment's answer to the PUT: an HTTP response carrying a status code and
its (already parsed) JSON body, or a `requests.exceptions.RequestException`. -/
inductive PutOutcome where
  | resp : Nat → String → PutOutcome
  | netErr : String → PutOutcome
deriving DecidableEq

/-- Either a normal Python return or an uncaught raised exception. -/
inductive PyOutcome where
  | ret : Option String → PyOutcome
  | raise : String → PyOutcome
deriving DecidableEq

/-- Observable behaviour of one call to `update_cloudflare_dns`: its outcome,
the PUT requests actually issued, and the printed log lines. -/
structure UpdateTrace where
  outcome : PyOutcome
  sent : List DnsRequest
  logs : List String
deriving DecidableEq

/-- The Cloudflare endpoint URL built from zone and record ids. -/
def cfUrl (zone_id record_id : String) : String :=
  "https://api.cloudflare.com/client/v4/zones/" ++ zone_id ++ "/dns_records/" ++ record_id

/-- The headers of the Cloudflare PUT. -/
def cfHeaders (api_token : String) : List (String × String) :=
  [("Authorization", "Bearer " ++ api_token), ("Content-Type", "application/json")]

/-- `update_cloudflare_dns` of `update-record.py`.  The `data` dict literal is
evaluated before the `try:` block, so `int(content.split(":")[1])` raising
`ValueError` (or `[1]` raising `IndexError` when `content` has no colon)
propagates out of the function with no request sent. -/
def update_cloudflare_dns (api_token zone_id record_id name content service proto : String)
    (ttl : Nat) (put : PutOutcome) : UpdateTrace :=
  match pySplitColon content with
  | p0 :: p1 :: _ =>
    (match parsePyInt p1 with
     | none =>
       { outcome := .raise ("ValueError: invalid literal for int() with base 10: " ++ p1),
         sent := [], logs := [] }
     | some portVal =>
       let req : DnsRequest :=
         { url := cfUrl zone_id record_id,
           headers := cfHeaders api_token,
           body := { type := "SRV", name := name, content := content,
                     data := { service := service, proto := proto, name := name,
                               priority := 0, weight := 0, port := portVal, target := p0 },
                     ttl := ttl } }
       match put with
       | .netErr m =>
         { outcome := .ret none, sent := [req], logs := ["Network error occurred: " ++ m] }
       | .resp s b =>
         if s ≠ 200 then
           { outcome := .ret none, sent := [req],
             logs := ["Error updating Cloudflare DNS: HTTP " ++ Nat.repr s, b] }
         else { outcome := .ret (some b), sent := [req], logs := [] })
  | _ => { outcome := .raise "IndexError: list index out of range", sent := [], logs := [] }

/-- The process environment: each field is the `os.getenv` result for the
variable of the same name (`none` = unset). -/
structure Env where
  CLOUDFLARE_API_TOKEN : Option String
  CLOUDFLARE_ZONE_ID : Option String
  CLOUDFLARE_RECORD_ID : Option String
  NGROK_API_ENDPOINT : Option String
  CLOUDFLARE_RECORD_NAME : Option String
  CLOUDFLARE_SERVICE_NAME : Option String
deriving DecidableEq

/-- Python truthiness of an `os.getenv` result: `None` and `""` are falsy. -/
def truthy : Option String → Bool
  | none => false
  | some s => !(s == "")

/-- The guard `all([cf_api_token, cf_zone_id, cf_record_id, ngrok_endpoint])`. -/
def requiredPresent (env : Env) : Bool :=
  truthy env.CLOUDFLARE_API_TOKEN && truthy env.CLOUDFLARE_ZONE_ID &&
    truthy env.CLOUDFLARE_RECORD_ID && truthy env.NGROK_API_ENDPOINT

/-- `json.dumps(update_response, indent=4)`: `None` prints as `null`; the JSON
body token is kept abstract otherwise. -/
def pyJsonDumps : Option String → String
  | none => "null"
  | some s => s

/-- Observable behaviour of one run of the `__main__` block: exit status,
number of GET requests, whether `update_cloudflare_dns` was invoked, the PUT
requests issued, the printed lines, and the uncaught exception if the run
crashed (CPython exits with status 1 on an uncaught exception). -/
structure RunResult where
  exitCode : Nat
  gets : Nat
  updateCalled : Bool
  sent : List DnsRequest
  output : List String
  uncaught : Option String
deriving DecidableEq

/-- The `__main__` block of `update-record.py`. -/
def main_run (env : Env) (ngrokResp : Option NgrokResponse) (put : PutOutcome) : RunResult :=
  if !requiredPresent env then
    { exitCode := 1, gets := 0, updateCalled := false, sent := [],
      output := ["Missing one or more required environment variables."], uncaught := none }
  else
    let name := env.CLOUDFLARE_RECORD_NAME.getD "default_record_name"
    let service := env.CLOUDFLARE_SERVICE_NAME.getD "_minecraft"
    let lookup := get_ngrok_url (env.NGROK_API_ENDPOINT.getD "") ngrokResp
    match unpack2 lookup.1 with
    | .error e =>
      { exitCode := 1, gets := 1, updateCalled := false, sent := [],
        output := lookup.2, uncaught := some e }
    | .ok (h, p) =>
      if truthy h && truthy p then
        let hs := h.getD ""
        let ps := p.getD ""
        let tr := update_cloudflare_dns (env.CLOUDFLARE_API_TOKEN.getD "")
          (env.CLOUDFLARE_ZONE_ID.getD "") (env.CLOUDFLARE_RECORD_ID.getD "")
          name (hs ++ ":" ++ ps) service "_tcp" 60 put
        match tr.outcome with
        | .raise e =>
          { exitCode := 1, gets := 1, updateCalled := true, sent := tr.sent,
            output := lookup.2 ++ ["Ngrok Host: " ++ hs ++ ", Port: " ++ ps] ++ tr.logs,
            uncaught := some e }
        | .ret v =>
          { exitCode := 0, gets := 1, updateCalled := true, sent := tr.sent,
            output := lookup.2 ++ ["Ngrok Host: " ++ hs ++ ", Port: " ++ ps] ++ tr.logs
              ++ [pyJsonDumps v],
            uncaught := none }
      else
        { exitCode := 0, gets := 1, updateCalled := false, sent := [],
          output := lookup.2 ++ ["Failed to retrieve ngrok URL and port."], uncaught := none }

/-- Modelled from the spec's words, for comparison with the source in claim C2:
strip only a leading occurrence of the pattern. -/
def stripLeadingList (pat cs : List Char) : List Char :=
  if pat.isPrefixOf cs then cs.drop pat.length else cs

/-- Modelled from the spec's words, for comparison with the source in claim C2:
strip only a leading `"tcp://"` scheme, then split on `":"`. -/
def specTunnelSplit (pu : String) : List String :=
  (splitOnColon (stripLeadingList ("tcp://".toList) pu.toList)).map List.asString

/-! Helper lemmas about the embedded Python string primitives. -/

lemma digit_ne {c d : Char} (h : c.isDigit = true) (hd : d.isDigit = false) : c ≠ d := by
  intro he
  rw [he, hd] at h
  cases h

lemma digit_not_ws {c : Char} (h : c.isDigit = true) : c.isWhitespace = false := by
  by_contra hws
  rw [Bool.not_eq_false] at hws
  simp only [Char.isWhitespace] at hws
  rcases Bool.or_eq_true_iff.mp hws with hor | h1
  · rcases Bool.or_eq_true_iff.mp hor with hor2 | h1
    · rcases Bool.or_eq_true_iff.mp hor2 with h1 | h1 <;>
        rw [show c = _ from by exact_mod_cast of_decide_eq_true h1] at h <;> cases h
    · rw [show c = _ from by exact_mod_cast of_decide_eq_true h1] at h; cases h
  · rw [show c = _ from by exact_mod_cast of_decide_eq_true h1] at h; cases h

lemma dropWhile_ws_of_all {cs : List Char} (h : ∀ c ∈ cs, c.isWhitespace = false) :
    cs.dropWhile Char.isWhitespace = cs := by
  cases cs with
  | nil => rfl
  | cons c rest => simp [List.dropWhile_cons, h c (by simp)]

lemma pyStripWs_of_all {cs : List Char} (h : ∀ c ∈ cs, c.isWhitespace = false) :
    pyStripWs cs = cs := by
  unfold pyStripWs
  rw [dropWhile_ws_of_all h,
    dropWhile_ws_of_all (fun c hc => h c (List.mem_reverse.mp hc)), List.reverse_reverse]

lemma pyDigitsAux_all : ∀ (cs : List Char) (acc : Nat), (∀ c ∈ cs, c.isDigit = true) →
    pyDigitsAux cs acc = some (digitsToNatAux cs acc)
  | [], acc, _ => rfl
  | c :: cs, acc, h => by
    have hc : c.isDigit = true := h c (by simp)
    rw [pyDigitsAux.eq_def]
    simp only [hc, if_true, digitsToNatAux]
    exact pyDigitsAux_all cs _ (fun x hx => h x (by simp [hx]))

lemma parsePyInt_digits (s : String) (c : Char) (rest : List Char)
    (hcs : s.toList = c :: rest) (h : ∀ x ∈ s.toList, x.isDigit = true) :
    parsePyInt s = some (Int.ofNat (strVal s)) := by
  rw [hcs] at h
  have hc : c.isDigit = true := h c (by simp)
  unfold parsePyInt strVal
  rw [hcs, pyStripWs_of_all (fun x hx => digit_not_ws (h x hx))]
  dsimp only
  rw [if_neg (digit_ne hc (show Char.isDigit '+' = false from by decide)),
    if_neg (digit_ne hc (show Char.isDigit '-' = false from by decide))]
  simp only [pyParseUnsigned, hc, if_true]
  rw [pyDigitsAux_all rest _ (fun x hx => h x (by simp [hx]))]
  simp [digitsToNatAux]

lemma splitOnColon_no_colon : ∀ cs : List Char, (∀ c ∈ cs, c ≠ ':') → splitOnColon cs = [cs]
  | [], _ => rfl
  | c :: cs, h => by
    have hc : c ≠ ':' := h c (by simp)
    have ih := splitOnColon_no_colon cs (fun x hx => h x (by simp [hx]))
    simp only [splitOnColon, if_neg hc, ih]

lemma splitOnColon_append : ∀ (a b : List Char), (∀ c ∈ a, c ≠ ':') →
    splitOnColon (a ++ ':' :: b) = a :: splitOnColon b
  | [], b, _ => by simp [splitOnColon]
  | c :: a, b, h => by
    have hc : c ≠ ':' := h c (by simp)
    have ih := splitOnColon_append a b (fun x hx => h x (by simp [hx]))
    simp only [List.cons_append, splitOnColon, if_neg hc, List.append_eq, ih]

lemma toList_append (s t : String) : (s ++ t).toList = s.toList ++ t.toList := by
  cases s; cases t; rfl

lemma asString_toList (s : String) : s.toList.asString = s := by
  cases s; rfl

lemma asString_data (s : String) : s.data.asString = s := by
  cases s; rfl

lemma pySplitColon_hostport (host port : String)
    (hh : ∀ c ∈ host.toList, c ≠ ':') (hp : ∀ c ∈ port.toList, c ≠ ':') :
    pySplitColon (host ++ ":" ++ port) = [host, port] := by
  unfold pySplitColon
  rw [toList_append, toList_append]
  rw [show (":" : String).toList = [':'] from rfl, List.append_assoc, List.singleton_append]
  rw [splitOnColon_append host.toList port.toList hh, splitOnColon_no_colon port.toList hp]
  simp [asString_toList, asString_data]

lemma find?_first_tcp : ∀ (pre : List Tunnel) (t : Tunnel) (post : List Tunnel),
    (∀ u ∈ pre, u.proto ≠ "tcp") → t.proto = "tcp" →
    (pre ++ t :: post).find? (fun u => u.proto == "tcp") = some t
  | [], t, post, _, ht => by simp [List.find?, ht]
  | u :: pre, t, post, hpre, ht => by
    have hu : u.proto ≠ "tcp" := hpre u (by simp)
    have hbeq : (u.proto == "tcp") = false := by simp [hu]
    have ih := find?_first_tcp pre t post (fun x hx => hpre x (by simp [hx])) ht
    simp [List.find?, hbeq, ih]

/-! Concrete fixtures shared by several evaluations. -/

/-- An environment with every required variable set. -/
def envAll : Env :=
  { CLOUDFLARE_API_TOKEN := some "token", CLOUDFLARE_ZONE_ID := some "zone",
    CLOUDFLARE_RECORD_ID := some "record",
    NGROK_API_ENDPOINT := some "http://127.0.0.1:4040/api/tunnels",
    CLOUDFLARE_RECORD_NAME := none, CLOUDFLARE_SERVICE_NAME := none }

/-- A 200 ngrok response whose tunnels list holds only an "http" tunnel. -/
def respHttpOnly : NgrokResponse :=
  { status_code := 200, tunnels := some [{ proto := "http", public_url := "http://localhost:80" }] }

/-- A 200 ngrok response whose only tunnel is a "tcp" one with the given public_url. -/
def respTcp (pu : String) : NgrokResponse :=
  { status_code := 200, tunnels := some [{ proto := "tcp", public_url := pu }] }

/-! Claim theorems. -/

/-- C1: the claim says that on a 200 response with no `"tcp"` tunnel,
`get_ngrok_url` returns the pair `(None, None)` and no exception is provoked in
the caller.  The code instead falls off the `for` loop and returns a bare
`None`, and the caller's tuple unpacking raises `TypeError` — contradicting the
function's own docstring, which promises `(None, None)` on error. -/
theorem get_ngrok_url_no_tcp_bare_none :
    (get_ngrok_url "http://127.0.0.1:4040/api/tunnels" (some respHttpOnly)).1 = .bareNone ∧
    unpack2 (get_ngrok_url "http://127.0.0.1:4040/api/tunnels" (some respHttpOnly)).1
      = .error "TypeError: cannot unpack non-iterable NoneType object" := by
  decide

/-- C2 counterexample: the claim says the code strips only a *leading*
`"tcp://"` and splits into *exactly two* components.  For
`public_url = "xtcp://1.2.3.4:5555"` the code removes the non-leading
occurrence of `"tcp://"` and returns `["x1.2.3.4", "5555"]`, while the
spec-described strip-leading-then-split yields the three components
`["xtcp", "//1.2.3.4", "5555"]`. -/
theorem get_ngrok_url_strip_split_counterexample :
    (get_ngrok_url "u" (some (respTcp "xtcp://1.2.3.4:5555"))).1
      = .parts ["x1.2.3.4", "5555"] ∧
    specTunnelSplit "xtcp://1.2.3.4:5555" = ["xtcp", "//1.2.3.4", "5555"] ∧
    (["x1.2.3.4", "5555"] : List String) ≠ ["xtcp", "//1.2.3.4", "5555"] := by
  decide

/-- C2 (amended): for a 200 response whose first `"tcp"` tunnel is `t`,
`get_ngrok_url` returns the list obtained by removing *every* occurrence of
`"tcp://"` from `t.public_url` and splitting on *every* colon; whenever that
list has exactly two components `[h, p]` — in particular for
`"tcp://1.2.3.4:5555"`, giving `("1.2.3.4", "5555")` — the caller receives
host `h` and port `p`. -/
theorem get_ngrok_url_first_tcp_replace_split (u : String) (r : NgrokResponse)
    (pre post : List Tunnel) (t : Tunnel)
    (hst : r.status_code = 200) (hts : r.tunnels = some (pre ++ t :: post))
    (hpre : ∀ v ∈ pre, v.proto ≠ "tcp") (ht : t.proto = "tcp") :
    (get_ngrok_url u (some r)).1 = .parts (pySplitColon (pyReplace t.public_url "tcp://" "")) ∧
    ∀ h p : String, pySplitColon (pyReplace t.public_url "tcp://" "") = [h, p] →
      unpack2 (get_ngrok_url u (some r)).1 = .ok (some h, some p) := by
  have hres : (get_ngrok_url u (some r)).1
      = .parts (pySplitColon (pyReplace t.public_url "tcp://" "")) := by
    rw [get_ngrok_url.eq_def]
    dsimp only
    rw [hst, if_neg (show ¬((200 : Nat) ≠ 200) from by simp), hts]
    dsimp only
    rw [find?_first_tcp pre t post hpre ht]
  refine ⟨hres, fun h p hhp => ?_⟩
  rw [hres, hhp]
  rfl

/-- C2 witness: the amended theorem applied to a 200 response with the single
tunnel `{ proto := "tcp", public_url := "tcp://1.2.3.4:5555" }`. -/
theorem get_ngrok_url_first_tcp_replace_split_witness :
    (get_ngrok_url "u" (some (respTcp "tcp://1.2.3.4:5555"))).1
      = .parts (pySplitColon (pyReplace "tcp://1.2.3.4:5555" "tcp://" "")) ∧
    unpack2 (get_ngrok_url "u" (some (respTcp "tcp://1.2.3.4:5555"))).1
      = .ok (some "1.2.3.4", some "5555") :=
  ⟨(get_ngrok_url_first_tcp_replace_split "u" (respTcp "tcp://1.2.3.4:5555")
      [] [] { proto := "tcp", public_url := "tcp://1.2.3.4:5555" } rfl rfl (by simp) rfl).1,
   (get_ngrok_url_first_tcp_replace_split "u" (respTcp "tcp://1.2.3.4:5555")
      [] [] { proto := "tcp", public_url := "tcp://1.2.3.4:5555" } rfl rfl (by simp) rfl).2
      "1.2.3.4" "5555" (by decide)⟩

/-- C3: for content of the form `"<host>:<port>"` with a colon-free host and a
numeric port, the request body built by `update_cloudflare_dns` has type
`"SRV"`, the given content, ttl 60 (the Python default), and data fields
`priority = 0`, `weight = 0`, `port` equal to the base-10 value of the port
segment, and `target` equal to the host segment. -/
theorem update_cloudflare_dns_body
    (api_token zone_id record_id name host port service proto : String) (put : PutOutcome)
    (hh : ∀ c ∈ host.toList, c ≠ ':')
    (hne : port.toList ≠ [])
    (hpd : ∀ c ∈ port.toList, c.isDigit = true) :
    (update_cloudflare_dns api_token zone_id record_id name (host ++ ":" ++ port)
        service proto 60 put).sent =
      [{ url := cfUrl zone_id record_id,
         headers := cfHeaders api_token,
         body := { type := "SRV", name := name, content := host ++ ":" ++ port,
                   data := { service := service, proto := proto, name := name,
                             priority := 0, weight := 0,
                             port := Int.ofNat (strVal port), target := host },
                   ttl := 60 } }] := by
  have hsplit := pySplitColon_hostport host port hh
    (fun x hx => digit_ne (hpd x hx) (show Char.isDigit ':' = false from by decide))
  cases hcs : port.toList with
  | nil => exact absurd hcs hne
  | cons c rest =>
    have hparse := parsePyInt_digits port c rest hcs hpd
    rw [update_cloudflare_dns.eq_def, hsplit]
    dsimp only
    rw [hparse]
    dsimp only
    cases put with
    | netErr m => rfl
    | resp s b =>
      dsimp only
      by_cases h200 : s ≠ 200
      · rw [if_pos h200]
      · rw [if_neg h200]

/-- C3 witness: the body theorem applied to host `"1.2.3.4"`, port `"5555"`. -/
theorem update_cloudflare_dns_body_witness :
    (update_cloudflare_dns "token" "zone" "record" "name" ("1.2.3.4" ++ ":" ++ "5555")
        "_minecraft" "_tcp" 60 (.resp 200 "okbody")).sent =
      [{ url := cfUrl "zone" "record",
         headers := cfHeaders "token",
         body := { type := "SRV", name := "name", content := "1.2.3.4" ++ ":" ++ "5555",
                   data := { service := "_minecraft", proto := "_tcp", name := "name",
                             priority := 0, weight := 0,
                             port := Int.ofNat (strVal "5555"), target := "1.2.3.4" },
                   ttl := 60 } }] :=
  update_cloudflare_dns_body "token" "zone" "record" "name" "1.2.3.4" "5555" "_minecraft" "_tcp"
    (.resp 200 "okbody") (by decide) (by decide) (by decide)

/-- C4: whenever a required configuration value (API token, zone id, record id,
or tunnel endpoint URL) is missing from the environment, the entry sequence
prints a diagnostic and exits with status 1 before performing any network call:
no GET and no PUT is issued. -/
theorem main_run_missing_config (env : Env) (ngrokResp : Option NgrokResponse) (put : PutOutcome)
    (hmiss : env.CLOUDFLARE_API_TOKEN = none ∨ env.CLOUDFLARE_ZONE_ID = none ∨
      env.CLOUDFLARE_RECORD_ID = none ∨ env.NGROK_API_ENDPOINT = none) :
    main_run env ngrokResp put
      = { exitCode := 1, gets := 0, updateCalled := false, sent := [],
          output := ["Missing one or more required environment variables."], uncaught := none } := by
  have hreq : requiredPresent env = false := by
    unfold requiredPresent
    rcases hmiss with h | h | h | h <;> rw [h] <;> simp [truthy]
  unfold main_run
  rw [hreq]
  rfl

/-- C4 witness: the configuration theorem applied to the empty environment. -/
theorem main_run_missing_config_witness :
    main_run
        { CLOUDFLARE_API_TOKEN := none, CLOUDFLARE_ZONE_ID := none,
          CLOUDFLARE_RECORD_ID := none, NGROK_API_ENDPOINT := none,
          CLOUDFLARE_RECORD_NAME := none, CLOUDFLARE_SERVICE_NAME := none }
        none (.netErr "x")
      = { exitCode := 1, gets := 0, updateCalled := false, sent := [],
          output := ["Missing one or more required environment variables."], uncaught := none } :=
  main_run_missing_config _ none (.netErr "x") (Or.inl rfl)

/-- C5: the claim says every run with complete configuration exits with status
0, including the tunnel-lookup-failure path.  With complete configuration and a
200 tunnel response holding no `"tcp"` tunnel, the run instead crashes with an
uncaught `TypeError` (exit status 1), because `get_ngrok_url` returns a bare
`None` that the caller cannot unpack — the spec's intended absent-pair path
(per the function's docstring) is never taken. -/
theorem main_run_crash_despite_config :
    requiredPresent envAll = true ∧
    (main_run envAll (some respHttpOnly) (.netErr "unused")).exitCode = 1 ∧
    (main_run envAll (some respHttpOnly) (.netErr "unused")).uncaught
      = some "TypeError: cannot unpack non-iterable NoneType object" := by
  decide

/-- C6: when the second colon-delimited segment of `content` does not parse as
a base-10 integer, `update_cloudflare_dns` raises an uncaught `ValueError`
instead of returning the absent result, and sends no PUT request: the parse
happens before the `try:` block. -/
theorem update_cloudflare_dns_bad_port
    (api_token zone_id record_id name content service proto : String)
    (ttl : Nat) (put : PutOutcome) (p0 p1 : String) (rest : List String)
    (hsplit : pySplitColon content = p0 :: p1 :: rest)
    (hbad : parsePyInt p1 = none) :
    update_cloudflare_dns api_token zone_id record_id name content service proto ttl put
      = { outcome := .raise ("ValueError: invalid literal for int() with base 10: " ++ p1),
          sent := [], logs := [] } := by
  rw [update_cloudflare_dns.eq_def, hsplit]
  dsimp only
  rw [hbad]

/-- C6 witness: the bad-port theorem applied to content `"1.2.3.4:abc"`. -/
theorem update_cloudflare_dns_bad_port_witness :
    update_cloudflare_dns "token" "zone" "record" "name" "1.2.3.4:abc" "_minecraft" "_tcp"
        60 (.resp 200 "okbody")
      = { outcome := .raise ("ValueError: invalid literal for int() with base 10: " ++ "abc"),
          sent := [], logs := [] } :=
  update_cloudflare_dns_bad_port "token" "zone" "record" "name" "1.2.3.4:abc" "_minecraft"
    "_tcp" 60 (.resp 200 "okbody") "1.2.3.4" "abc" [] (by decide) (by decide)

/-- C7: on a tunnel API response with a non-200 status, `get_ngrok_url` logs
the status and returns the pair `(None, None)`; the caller's unpacking then
succeeds with both components absent, so no exception escapes. -/
theorem get_ngrok_url_non200 (u : String) (r : NgrokResponse) (hst : r.status_code ≠ 200) :
    get_ngrok_url u (some r)
      = (.pairNone, ["Error fetching ngrok URL: HTTP " ++ Nat.repr r.status_code]) ∧
    unpack2 (get_ngrok_url u (some r)).1 = .ok (none, none) := by
  have h1 : get_ngrok_url u (some r)
      = (.pairNone, ["Error fetching ngrok URL: HTTP " ++ Nat.repr r.status_code]) := by
    rw [get_ngrok_url.eq_def]
    dsimp only
    rw [if_pos hst]
  exact ⟨h1, by rw [h1]; rfl⟩

/-- C7 witness: the non-200 theorem applied to a 502 response. -/
theorem get_ngrok_url_non200_witness :
    get_ngrok_url "u" (some { status_code := 502, tunnels := none })
      = (.pairNone, ["Error fetching ngrok URL: HTTP " ++ Nat.repr 502]) ∧
    unpack2 (get_ngrok_url "u" (some { status_code := 502, tunnels := none })).1
      = .ok (none, none) :=
  get_ngrok_url_non200 "u" { status_code := 502, tunnels := none } (by decide)

/-- C8: once the body is built (the port segment parses), `update_cloudflare_dns`
returns the parsed JSON response body exactly on HTTP 200; on any non-200
status it logs the status code and the provider's JSON body and returns absent;
and on a network-level fault it logs a message and returns absent — never
raising. -/
theorem update_cloudflare_dns_put_result
    (api_token zone_id record_id name content service proto : String)
    (ttl : Nat) (p0 p1 : String) (rest : List String) (v : Int)
    (hsplit : pySplitColon content = p0 :: p1 :: rest)
    (hport : parsePyInt p1 = some v) :
    (∀ b : String,
      (update_cloudflare_dns api_token zone_id record_id name content service proto ttl
          (.resp 200 b)).outcome = .ret (some b)) ∧
    (∀ (s : Nat) (b : String), s ≠ 200 →
      (update_cloudflare_dns api_token zone_id record_id name content service proto ttl
          (.resp s b)).outcome = .ret none ∧
      (update_cloudflare_dns api_token zone_id record_id name content service proto ttl
          (.resp s b)).logs = ["Error updating Cloudflare DNS: HTTP " ++ Nat.repr s, b]) ∧
    (∀ m : String,
      (update_cloudflare_dns api_token zone_id record_id name content service proto ttl
          (.netErr m)).outcome = .ret none ∧
      (update_cloudflare_dns api_token zone_id record_id name content service proto ttl
          (.netErr m)).logs = ["Network error occurred: " ++ m]) := by
  refine ⟨fun b => ?_, fun s b hs => ?_, fun m => ?_⟩
  · rw [update_cloudflare_dns.eq_def, hsplit]
    dsimp only
    rw [hport]
    dsimp only
    rw [if_neg (show ¬((200 : Nat) ≠ 200) from by simp)]
  · constructor <;>
      (rw [update_cloudflare_dns.eq_def, hsplit]; dsimp only; rw [hport]; dsimp only;
        rw [if_pos hs])
  · constructor <;> (rw [update_cloudflare_dns.eq_def, hsplit]; dsimp only; rw [hport])

/-- C8 witness: the PUT-result theorem applied to content `"1.2.3.4:5555"`,
with a 200 response, a 403 response, and a network fault. -/
theorem update_cloudflare_dns_put_result_witness :
    (update_cloudflare_dns "token" "zone" "record" "name" "1.2.3.4:5555" "_minecraft" "_tcp" 60
        (.resp 200 "okbody")).outcome = .ret (some "okbody") ∧
    (update_cloudflare_dns "token" "zone" "record" "name" "1.2.3.4:5555" "_minecraft" "_tcp" 60
        (.resp 403 "errbody")).outcome = .ret none ∧
    (update_cloudflare_dns "token" "zone" "record" "name" "1.2.3.4:5555" "_minecraft" "_tcp" 60
        (.resp 403 "errbody")).logs
      = ["Error updating Cloudflare DNS: HTTP " ++ Nat.repr 403, "errbody"] ∧
    (update_cloudflare_dns "token" "zone" "record" "name" "1.2.3.4:5555" "_minecraft" "_tcp" 60
        (.netErr "boom")).outcome = .ret none :=
  have h := update_cloudflare_dns_put_result "token" "zone" "record" "name" "1.2.3.4:5555"
    "_minecraft" "_tcp" 60 "1.2.3.4" "5555" [] 5555 (by decide) (by decide)
  ⟨h.1 "okbody", (h.2.1 403 "errbody" (by decide)).1, (h.2.1 403 "errbody" (by decide)).2,
    (h.2.2 "boom").1⟩

/-- C9: the PUT request (URL, headers, JSON body) issued by
`update_cloudflare_dns` is a deterministic function of its arguments alone:
there is a single request list, independent of the environment's response,
that every call with these arguments sends — so two successive calls with
identical arguments construct identical requests. -/
theorem update_cloudflare_dns_deterministic_request
    (api_token zone_id record_id name content service proto : String) (ttl : Nat) :
    ∃ reqs : List DnsRequest, ∀ put : PutOutcome,
      (update_cloudflare_dns api_token zone_id record_id name content service proto ttl put).sent
        = reqs := by
  rcases hs : pySplitColon content with _ | ⟨p0, ps⟩
  · exact ⟨[], fun put => by rw [update_cloudflare_dns.eq_def, hs]⟩
  · rcases ps with _ | ⟨p1, rest⟩
    · exact ⟨[], fun put => by rw [update_cloudflare_dns.eq_def, hs]⟩
    · rcases hv : parsePyInt p1 with _ | v
      · exact ⟨[], fun put => by
          rw [update_cloudflare_dns.eq_def, hs]; dsimp only; rw [hv]⟩
      · refine ⟨[{ url := cfUrl zone_id record_id,
                   headers := cfHeaders api_token,
                   body := { type := "SRV", name := name, content := content,
                             data := { service := service, proto := proto, name := name,
                                       priority := 0, weight := 0, port := v, target := p0 },
                             ttl := ttl } }], fun put => ?_⟩
        rw [update_cloudflare_dns.eq_def, hs]
        dsimp only
        rw [hv]
        dsimp only
        cases put with
        | netErr m => rfl
        | resp s b =>
          dsimp only
          by_cases h200 : s ≠ 200
          · rw [if_pos h200]
          · rw [if_neg h200]

/-- C10: with complete configuration, `update_cloudflare_dns` is invoked
exactly when the unpacked host and port are both truthy (non-`None` and
nonempty); when either is absent or the empty string, the entry sequence
prints the failure diagnostic and issues no PUT request. -/
theorem main_run_update_gate (env : Env) (ngrokResp : Option NgrokResponse) (put : PutOutcome)
    (h p : Option String)
    (hreq : requiredPresent env = true)
    (hun : unpack2 (get_ngrok_url (env.NGROK_API_ENDPOINT.getD "") ngrokResp).1 = .ok (h, p)) :
    ((main_run env ngrokResp put).updateCalled = (truthy h && truthy p)) ∧
    ((truthy h && truthy p) = false →
      (main_run env ngrokResp put).sent = [] ∧
      "Failed to retrieve ngrok URL and port." ∈ (main_run env ngrokResp put).output) := by
  unfold main_run
  rw [hreq]
  simp only [Bool.not_true]
  rw [if_neg (show ¬(false = true) from by simp)]
  rw [hun]
  dsimp only
  cases htp : (truthy h && truthy p) with
  | false =>
    rw [if_neg (show ¬(false = true) from by simp)]
    exact ⟨rfl, fun _ => ⟨rfl, by simp⟩⟩
  | true =>
    rw [if_pos rfl]
    constructor
    · split <;> rfl
    · intro hf
      cases hf

/-- C10 witness: the gate theorem applied to a full environment and a failed
lookup (network error), where both unpacked components are absent. -/
theorem main_run_update_gate_witness :
    (main_run envAll none (.netErr "x")).updateCalled = (truthy none && truthy none) ∧
    (main_run envAll none (.netErr "x")).sent = [] ∧
    "Failed to retrieve ngrok URL and port." ∈ (main_run envAll none (.netErr "x")).output :=
  have hg := main_run_update_gate envAll none (.netErr "x") none none (by decide) (by decide)
  ⟨hg.1, (hg.2 (by decide)).1, (hg.2 (by decide)).2⟩
